import Mathlib

/-!
Verification of the MISUMI extrusion part-number codec and the Voron Trident
frame classifier, as implemented in `src/extrusion_decoder`.

The embedding is shallow: Python strings are Lean `String` (a list of
characters), Python `int` is `Int`, Python dictionaries with fixed key sets
become structures or inductives, Python `None`-able values become `Option`.
`str.split("-")` and `"-".join(...)` are modelled by explicit recursion over
the character list.  `int(s)` is modelled by `parseInt?` (optional sign
followed by a non-empty run of ASCII digits; the exotic forms Python also
accepts, such as surrounding whitespace or underscores, are not modelled).
The regular expression `^([A-Z]+)(\d+)$` used by `parse_alteration_code` is
modelled by `splitUD` (maximal run of `A`-`Z` letters followed by a non-empty
run of ASCII digits spanning the whole token), which agrees with the regex on
every input because `[A-Z]+` is greedy and no backtracking can succeed when
the remainder is not all digits.
-/

/-- Python `str.split("-")` on the character list: always returns at least one
(possibly empty) segment. -/
def splitOnDashL : List Char → List (List Char)
  | [] => [[]]
  | c :: rest =>
    match splitOnDashL rest with
    | [] => [[]]
    | seg :: segs => if c = '-' then [] :: seg :: segs else (c :: seg) :: segs

/-- Python `"-".join(parts)` on character lists. -/
def joinDashL : List (List Char) → List Char
  | [] => []
  | [p] => p
  | p :: rest => p ++ '-' :: joinDashL rest

/-- Lift of `part_number.split("-")` to `String`. -/
def splitDash (s : String) : List String :=
  (splitOnDashL s.data).map String.mk

/-- Lift of `"-".join(parts)` to `String`. -/
def joinDash (parts : List String) : String :=
  String.mk (joinDashL (parts.map String.data))

/-- Value of a non-empty all-digit character run, `none` otherwise. -/
def digitsVal? (s : List Char) : Option Nat :=
  if s = [] then none
  else if s.all Char.isDigit then
    some (s.foldl (fun acc c => acc * 10 + (c.toNat - 48)) 0)
  else none

/-- Model of Python `int(s)`: optional sign then a non-empty digit run. -/
def parseInt? (s : List Char) : Option Int :=
  match s with
  | '-' :: rest => (digitsVal? rest).map (fun n => -(n : Int))
  | '+' :: rest => (digitsVal? rest).map (fun n => (n : Int))
  | _ => (digitsVal? s).map (fun n => (n : Int))

/-- Table `ALTERATION_CODES` from `decoder.py`: alteration code → description.
Python dictionary lookup is modelled by association-list lookup (keys are
unique, so the two agree). -/
def ALTERATION_CODES : List (String × String) := [
  ("LTP", "Left End Tapping (Center Hole)"),
  ("RTP", "Right End Tapping (Center Hole)"),
  ("TPM", "End Tapping (Center Hole)"),
  ("TPW", "End Tapping (Center Hole, Both Sides, Heli-Coil Insert)"),
  ("LHP", "Left End Tapping (Center Hole)"),
  ("RHP", "Right End Tapping (Center Hole)"),
  ("HPW", "End Tapping (Center Hole, Heli-Coil Insert)"),
  ("LSP", "Left End Tapping (4 Side Holes)"),
  ("RSP", "Right End Tapping (4 Side Holes)"),
  ("SPW", "End Tapping (4 Side Holes)"),
  ("SC", "High Precision Cut (L=0.2 tolerance)"),
  ("L_T45", "Left 45-Degree Cut"),
  ("R_T45", "Right 45-Degree Cut"),
  ("LCH", "Left Wrench Access Hole (1 Slot, Horizontal)"),
  ("LCV", "Left Wrench Access Hole (1 Slot, Vertical)"),
  ("LCP", "Left Wrench Access Hole (1 Slot, Crisscross)"),
  ("RCH", "Right Wrench Access Hole (1 Slot, Horizontal)"),
  ("RCV", "Right Wrench Access Hole (1 Slot, Vertical)"),
  ("RCP", "Right Wrench Access Hole (1 Slot, Crisscross)"),
  ("LWH", "Left Wrench Access Hole (2 Slots, Horizontal)"),
  ("LWV", "Left Wrench Access Hole (2 Slots, Vertical)"),
  ("LWP", "Left Wrench Access Hole (2 Slots, Crisscross)"),
  ("RWH", "Right Wrench Access Hole (2 Slots, Horizontal)"),
  ("RWV", "Right Wrench Access Hole (2 Slots, Vertical)"),
  ("RWP", "Right Wrench Access Hole (2 Slots, Crisscross)"),
  ("LEH", "Left Wrench Access Hole (3 Slots, Horizontal)"),
  ("LEV", "Left Wrench Access Hole (3 Slots, Vertical)"),
  ("LEP", "Left Wrench Access Hole (3 Slots, Crisscross)"),
  ("REH", "Right Wrench Access Hole (3 Slots, Horizontal)"),
  ("REV", "Right Wrench Access Hole (3 Slots, Vertical)"),
  ("REP", "Right Wrench Access Hole (3 Slots, Crisscross)"),
  ("RWIP", "Right Wrench Hole in Fixed Position"),
  ("X5", "Wrench Hole Diameter Specification (5mm)"),
  ("X8", "Wrench Hole Diameter Specification (8mm)"),
  ("FL", "Extrusion End Caps Hole Position Change (Left, for 3mm cap)"),
  ("FR", "Extrusion End Caps Hole Position Change (Right, for 3mm cap)"),
  ("AH", "Wrench Hole in Specified Position (Horizontal, A position)"),
  ("BH", "Wrench Hole in Specified Position (Horizontal, B position)"),
  ("CH", "Wrench Hole in Specified Position (Horizontal, C position)"),
  ("DH", "Wrench Hole in Specified Position (Horizontal, D position)"),
  ("EH", "Wrench Hole in Specified Position (Horizontal, E position)"),
  ("AV", "Wrench Hole in Specified Position (Vertical, A position)"),
  ("BV", "Wrench Hole in Specified Position (Vertical, B position)"),
  ("CV", "Wrench Hole in Specified Position (Vertical, C position)"),
  ("DV", "Wrench Hole in Specified Position (Vertical, D position)"),
  ("EV", "Wrench Hole in Specified Position (Vertical, E position)"),
  ("AP", "Wrench Hole in Specified Position (Crisscross, A position)"),
  ("BP", "Wrench Hole in Specified Position (Crisscross, B position)"),
  ("CP", "Wrench Hole in Specified Position (Crisscross, C position)"),
  ("DP", "Wrench Hole in Specified Position (Crisscross, D position)"),
  ("EP", "Wrench Hole in Specified Position (Crisscross, E position)"),
  ("Z5", "Counterbore in Specified Position (Z5, d=5.5mm)"),
  ("Z6", "Counterbore in Specified Position (Z6, d=6.5mm)"),
  ("Z8", "Counterbore in Specified Position (Z8, d=9mm)"),
  ("Z12", "Counterbore in Specified Position (Z12, d=13mm)"),
  ("XA", "Counterbore (Top to Bottom, Vertical, A position)"),
  ("XB", "Counterbore (Top to Bottom, Vertical, B position)"),
  ("XC", "Counterbore (Top to Bottom, Vertical, C position)"),
  ("XD", "Counterbore (Top to Bottom, Vertical, D position)"),
  ("XE", "Counterbore (Top to Bottom, Vertical, E position)"),
  ("YA", "Counterbore (Right to Left, Horizontal, A position)"),
  ("YB", "Counterbore (Right to Left, Horizontal, B position)"),
  ("YC", "Counterbore (Right to Left, Horizontal, C position)"),
  ("YD", "Counterbore (Right to Left, Horizontal, D position)"),
  ("YE", "Counterbore (Right to Left, Horizontal, E position)"),
  ("LDH", "Left D Hole (Horizontal on Left End, Pre-Assembly Insertion Double Joint)"),
  ("LDV", "Left D Hole (Vertical on Left End, Pre-Assembly Insertion Double Joint)"),
  ("RDH", "Right D Hole (Horizontal on Right End, Pre-Assembly Insertion Double Joint)"),
  ("RDV", "Right D Hole (Vertical on Right End, Pre-Assembly Insertion Double Joint)"),
  ("LSH", "Left S Hole (Horizontal on Left End, Post-Assembly Insertion Double Joint, Center Joint)"),
  ("LSV", "Left S Hole (Vertical on Left End, Post-Assembly Insertion Double Joint, Center Joint)"),
  ("RSH", "Right S Hole (Horizontal on Right End, Post-Assembly Insertion Double Joint, Center Joint)"),
  ("RSV", "Right S Hole (Vertical on Right End, Post-Assembly Insertion Double Joint, Center Joint)"),
  ("LMH", "Left M Hole (Post-Assembly Insertion Double Joint, Post Connection)"),
  ("RMH", "Right M Hole (Horizontal on Right End, Post-Assembly Insertion Double Joint, Post Connection)"),
  ("JLP", "L Hole (Crisscross on Top, Parallel Joint)"),
  ("KLP", "L Hole (Crisscross on Bottom, Parallel Joint)"),
  ("LTS", "Left End Tapping (GFS/HFSR Series)"),
  ("RTS", "Right End Tapping (GFS/HFSR Series)"),
  ("TSW", "End Tapping (GFS/HFSR Series)"),
  ("CW", "End Face C Chamfering"),
  ("ZZZ", "Labeling (Serial Number)"),
  ("LL", "Labeling (Unit Number)")]

/-- Function `parse_size` from `decoder.py`. -/
def parse_size (size_str : String) : String :=
  if size_str.length = 4 then
    let dim := String.mk (size_str.data.take 2)
    dim ++ "mm × " ++ dim ++ "mm"
  else if size_str.length = 6 then
    let dim1 := String.mk (size_str.data.take 2)
    let dim2 := String.mk ((size_str.data.drop 2).take 2)
    let dim3 := String.mk ((size_str.data.drop 4).take 2)
    dim1 ++ "mm × " ++ dim2 ++ "mm × " ++ dim3 ++ "mm"
  else
    size_str ++ " (custom size)"

/-- Function `parse_length` from `decoder.py`: `int(s)` then append "mm", raw
pass-through when the parse raises `ValueError`. -/
def parse_length (length_str : String) : String :=
  match parseInt? length_str.data with
  | some length => toString length ++ "mm"
  | none => length_str

/-- Model of `re.match(r"^([A-Z]+)(\d+)$", code)`: the two groups when the
token is a non-empty run of uppercase letters followed by a non-empty run of
digits, `none` otherwise. -/
def splitUD (code : String) : Option (String × String) :=
  let letters := code.data.takeWhile Char.isUpper
  let digits := code.data.dropWhile Char.isUpper
  if letters ≠ [] ∧ digits ≠ [] ∧ digits.all Char.isDigit then
    some (String.mk letters, String.mk digits)
  else none

/-- The position-letter base codes listed in `parse_alteration_code`
(`decoder.py` lines 170-196), in source order. -/
def posBases : List String :=
  ["AV", "BV", "CV", "DV", "EV", "AH", "BH", "CH", "DH", "EH",
   "AP", "BP", "CP", "DP", "EP", "XA", "XB", "XC", "XD", "XE",
   "YA", "YB", "YC", "YD", "YE"]

/-- The numeric-qualifier dispatch on a known base code
(`decoder.py` lines 169-206). -/
def qualifierFor (base_code description numeric_value : String) : String × Option String :=
  if posBases.contains base_code then
    (description, some (numeric_value ++ "mm from left end"))
  else if base_code == "JLP" || base_code == "KLP" then
    (description, some ("Hole pitch: " ++ numeric_value ++ "mm"))
  else if base_code == "ZZZ" then
    (description, some ("Serial: " ++ numeric_value))
  else if base_code == "LL" then
    (description, some ("Unit: " ++ numeric_value))
  else
    (description, some numeric_value)

/-- Function `parse_alteration_code` from `decoder.py`.  The source's underscore block
(lines 156-158) re-tests the same dictionary membership that already failed,
and is reproduced as the (never-taken) first conditional of the fallback. -/
def parse_alteration_code (code : String) : String × Option String :=
  match ALTERATION_CODES.lookup code with
  | some description => (description, none)
  | none =>
    if code.data.contains '_' && (ALTERATION_CODES.lookup code).isSome then
      ((ALTERATION_CODES.lookup code).getD "", none)
    else
      match splitUD code with
      | some (base_code, numeric_value) =>
        match ALTERATION_CODES.lookup base_code with
        | some description => qualifierFor base_code description numeric_value
        | none => ("Unknown alteration code: " ++ base_code, some numeric_value)
      | none => ("Unknown alteration code: " ++ code, none)

/-- Result of `decode_misumi_name`: either the error dictionary (fewer than
3 hyphen-separated segments) or the dictionary with the eight normal fields. -/
inductive DecodedPart where
  | err (msg : String)
  | ok (part_number series size size_raw length length_raw : String)
       (alterations alteration_descriptions : List String)
  deriving DecidableEq, Repr

def DecodedPart.seriesF : DecodedPart → Option String
  | .err _ => none
  | .ok _ s _ _ _ _ _ _ => some s

def DecodedPart.sizeRawF : DecodedPart → Option String
  | .err _ => none
  | .ok _ _ _ z _ _ _ _ => some z

def DecodedPart.lengthRawF : DecodedPart → Option String
  | .err _ => none
  | .ok _ _ _ _ _ l _ _ => some l

def DecodedPart.alterationsF : DecodedPart → Option (List String)
  | .err _ => none
  | .ok _ _ _ _ _ _ a _ => some a

def DecodedPart.isErr : DecodedPart → Bool
  | .err _ => true
  | .ok _ _ _ _ _ _ _ _ => false

/-- The per-token description used by `decode_misumi_name`: Python's
`if value:` treats both `None` and the empty string as falsy. -/
def describeAlteration (alt_code : String) : String :=
  match parse_alteration_code alt_code with
  | (desc, some value) => if value = "" then desc else desc ++ " (" ++ value ++ ")"
  | (desc, none) => desc

/-- Function `decode_misumi_name` from `decoder.py`.  Indexing `parts[0..2]` happens
after the length guard, so the `getD` defaults are never used. -/
def decode_misumi_name (part_number : String) : DecodedPart :=
  let parts := splitDash part_number
  if parts.length < 3 then
    .err ("Invalid part number format. Expected at least 3 parts separated by hyphens, got: "
          ++ part_number)
  else
    let series := parts.getD 0 ""
    let size := parts.getD 1 ""
    let length := parts.getD 2 ""
    let alterations := if 3 < parts.length then parts.drop 3 else []
    .ok part_number series (parse_size size) size (parse_length length) length
       alterations (alterations.map describeAlteration)

/-- Method `MisumiMaker.encode_part_number` from `makers/misumi.py`; `alterations`
defaults to `None`, and Python's `if alterations:` skips both `None` and the
empty list. -/
def MisumiMaker.encode_part_number (series size : String) (length : Int)
    (alterations : Option (List String)) : String :=
  let parts := [series, size, toString length]
  let parts :=
    match alterations with
    | some alts => if alts.isEmpty then parts else parts ++ alts
    | none => parts
  joinDash parts

/-- Record `BuildVolume` from `printers/base.py` (the `name` default is applied by
callers that construct one). -/
structure BuildVolume where
  x : Int
  y : Int
  z : Int
  name : String
  deriving DecidableEq, Repr

/-- Record `ExtrusionSpec` from `printers/base.py` (with `alterations` already
defaulted to `[]` when absent). -/
structure ExtrusionSpec where
  letter : String
  length : Int
  quantity : Int
  alterations : List String
  description : String
  deriving DecidableEq, Repr

/-- Method `TridentPrinter.get_supported_build_volumes` from `printers/trident.py`. -/
def TridentPrinter.get_supported_build_volumes : List BuildVolume :=
  [⟨250, 250, 250, "250x250x250"⟩,
   ⟨300, 300, 250, "300x300x250"⟩,
   ⟨350, 350, 250, "350x350x250"⟩]

/-- Method `TridentPrinter.get_extrusion_specs` from `printers/trident.py`
(lines 71-180).  `c_length // 2` is Python floor division, i.e. `Int.fdiv`. -/
def TridentPrinter.get_extrusion_specs (build_volume : BuildVolume) : List ExtrusionSpec :=
  let build_size_x := build_volume.x
  let a_length := build_size_x + 120
  let c_length := build_size_x + 120
  let f_length := build_size_x + 120
  let d_length := build_size_x - 10
  let e_length := build_size_x + 80
  let g_length := build_size_x - 18
  let b_length : Int := 500
  let h_length : Int := 330
  [⟨"A", a_length, 9, ["TPW"],
    "Horizontal frame extrusions (3 bottom, 4 top, 2 middle sides)"⟩,
   ⟨"B", b_length, 4, ["LCP", "RCP", "AV360"],
    "Vertical upright extrusions (span full height, 4 corners)"⟩,
   ⟨"C", c_length, 1, ["AV" ++ toString (Int.fdiv c_length 2), "TPW"],
    "Bottom rear horizontal extrusion (identical to A but with wrench-access hole at midpoint, tapped holes at ends)"⟩,
   ⟨"D", d_length, 1, [],
    "Rear Brace of print-head gantry support"⟩,
   ⟨"E", e_length, 1, [],
    "Gantry X-axis extrusion (used in X axis assembly, carries print head)"⟩,
   ⟨"F", f_length, 1, ["AH235", "TPW"],
    "Print bed support extrusion (G mounts to its midpoint)"⟩,
   ⟨"G", g_length, 1, ["AH235"],
    "Print bed support extrusion (mounts to F midpoint; bed constrained by rails on H front and front B extrusions)"⟩,
   ⟨"H", h_length, 1, [],
    "Vertical center extrusion (mounts to C center, D mounts to top)"⟩]

/-- The `build_size` string resolved from the optional build volume
(`printers/trident.py` lines 204-212). -/
def buildSizeOf (build_volume : Option BuildVolume) : Option String :=
  match build_volume with
  | some v =>
    if v.x = 250 then some "250mm"
    else if v.x = 300 then some "300mm"
    else if v.x = 350 then some "350mm"
    else none
  | none => none

/-- The `250 if build_size == "250mm" else 300 if ... else None` expression
repeated in each size-dependent branch of `get_extrusion_letter`. -/
def expectedX (build_size : Option String) : Option Int :=
  if build_size = some "250mm" then some 250
  else if build_size = some "300mm" then some 300
  else if build_size = some "350mm" then some 350
  else none

/-- Python's `if expected and <test using expected>:` on an optional value. -/
def matchExp (e : Option Int) (f : Int → Bool) : Bool :=
  match e with
  | some x => f x
  | none => false

/-- Test `alt.startswith("AV") or alt.startswith("AH")`. -/
def startsWithAVorAH (alt : String) : Bool :=
  alt.data.take 2 == ['A', 'V'] || alt.data.take 2 == ['A', 'H']

/-- The C-extrusion position-code loop of `get_extrusion_letter`
(`printers/trident.py` lines 230-259): some position code parses to an
integer within 5mm of `length // 2`, with `length == expected_c + 120`.
A failed `int(pos_code[2:])` is a `continue`. -/
def cHit (alterations : List String) (length : Int) (build_size : Option String) : Bool :=
  let position_codes := alterations.filter startsWithAVorAH
  !position_codes.isEmpty && position_codes.any fun pos_code =>
    match parseInt? (pos_code.data.drop 2) with
    | none => false
    | some position =>
      matchExp (expectedX build_size) fun expected_c =>
        length == expected_c + 120 &&
        decide ((position - Int.fdiv length 2).natAbs ≤ 5)

/-- Method `TridentPrinter.get_extrusion_letter` from `printers/trident.py`
(lines 182-369): the B, C, F, A, D, E, G, H rule chain. -/
def TridentPrinter.get_extrusion_letter (decoded : DecodedPart) (quantity : Int)
    (build_volume : Option BuildVolume) : Option String :=
  match decoded with
  | .err _ => none
  | .ok _ _ _ _ _ length_raw alterations _ =>
    match parseInt? length_raw.data with
    | none => none
    | some length =>
      let build_size := buildSizeOf build_volume
      if length == 500 && alterations.contains "LCP" && alterations.contains "RCP"
          && alterations.contains "AV360" then some "B"
      else if alterations.contains "TPW" && quantity == 1
          && cHit alterations length build_size then some "C"
      else if !(alterations.contains "TPW") && quantity == 1
          && matchExp (expectedX build_size) (fun expected_f => length == expected_f + 120)
          && (alterations.contains "AH185" || alterations.contains "AH235") then some "F"
      else if alterations.contains "TPW" && !(alterations.contains "AH235")
          && !(alterations.contains "AV235") && !(alterations.contains "AH185")
          && matchExp (expectedX build_size) (fun expected_a => length == expected_a + 120)
          then some "A"
      else if alterations.isEmpty && quantity == 1
          && matchExp (expectedX build_size) (fun expected_d => length == expected_d - 10)
          then some "D"
      else if alterations.isEmpty && quantity == 1
          && matchExp (expectedX build_size) (fun expected_e => length == expected_e + 80)
          then some "E"
      else if alterations.contains "LTP" && quantity == 1
          && matchExp (expectedX build_size) (fun expected_g => length == expected_g - 18)
          then some "G"
      else if alterations.contains "LTP" && quantity == 1 && length == 330 then some "H"
      else none

/-- The legacy length-table classifier `get_extrusion_letter` from `voron.py`
(lines 14-157), keyed on an optional `build_size` string. -/
def Voron.get_extrusion_letter (decoded : DecodedPart) (quantity : Int)
    (build_size : Option String) : Option String :=
  match decoded with
  | .err _ => none
  | .ok _ _ _ _ _ length_raw alterations _ =>
    match parseInt? length_raw.data with
    | none => none
    | some length =>
      if length == 500 && alterations.contains "LCP" && alterations.contains "RCP"
          && alterations.contains "AV360" then some "B"
      else if length == 340 && quantity == 1 then some "A"
      else if length == 290 && quantity == 1 then some "A"
      else if length == 240 && quantity == 1 then some "A"
      else if (length == 330 || length == 332) && alterations.contains "LTP" then some "E"
      else if (length == 380 || length == 382) && alterations.contains "LTP" then some "E"
      else if (length == 430 || length == 432) && alterations.contains "LTP" then some "E"
      else if length == 430 && quantity == 1 then some "D"
      else if length == 380 && quantity == 1 then some "D"
      else if length == 480 && quantity == 1 then some "D"
      else if length == 470 && alterations.contains "TPW" && !(alterations.contains "AH235") then
        if build_size == some "300mm" then some "C"
        else if build_size == some "250mm" || build_size == some "350mm" then some "H"
        else some "C/H"
      else if length == 420 && alterations.contains "TPW" && !(alterations.contains "AH235")
          then some "C"
      else if length == 520 && alterations.contains "TPW" && !(alterations.contains "AH235")
          then some "C"
      else if length == 470 && alterations.contains "AH235" && alterations.contains "TPW"
          && quantity == 1 then some "F"
      else if length == 420 && alterations.contains "AH235" && alterations.contains "TPW"
          && quantity == 1 then some "F"
      else if length == 520 && alterations.contains "AH235" && alterations.contains "TPW"
          && quantity == 1 then some "F"
      else if length == 470 && alterations.contains "AH235" && !(alterations.contains "TPW")
          && quantity == 1 then some "G"
      else if length == 420 && alterations.contains "AH235" && !(alterations.contains "TPW")
          && quantity == 1 then some "G"
      else if length == 520 && alterations.contains "AH235" && !(alterations.contains "TPW")
          && quantity == 1 then some "G"
      else none

/-- A decoded part carrying exactly a generated spec's integer length and
alteration list (the "decode-equivalent" of an `ExtrusionSpec`). -/
def partOfSpec (s : ExtrusionSpec) : DecodedPart :=
  .ok "" "" "" "" "" (toString s.length) s.alterations []

/-- One generated spec fed back through classification under build volume `v`
recovers its own role letter. -/
def roundTripSpec (v : BuildVolume) (s : ExtrusionSpec) : Bool :=
  TridentPrinter.get_extrusion_letter (partOfSpec s) s.quantity (some v) == some s.letter

/-! ## Helper lemmas -/

lemma digitChar_ne_dash : ∀ n : Nat, Nat.digitChar n ≠ '-'
  | 0 | 1 | 2 | 3 | 4 | 5 | 6 | 7 | 8 | 9 | 10 | 11 | 12 | 13 | 14 | 15 => by decide
  | n + 16 => by
      have h : Nat.digitChar (n + 16) = '*' := rfl
      rw [h]; decide

lemma toDigitsCore_ne_dash (b : Nat) :
    ∀ (fuel n : Nat) (acc : List Char), (∀ c ∈ acc, c ≠ '-') →
      ∀ c ∈ Nat.toDigitsCore b fuel n acc, c ≠ '-' := by
  intro fuel
  induction fuel with
  | zero => intro n acc hacc c hc; exact hacc c hc
  | succ f ih =>
    intro n acc hacc c hc
    unfold Nat.toDigitsCore at hc
    dsimp only at hc
    split at hc
    · rcases List.mem_cons.mp hc with h | h
      · subst h; exact digitChar_ne_dash _
      · exact hacc c h
    · refine ih _ _ ?_ c hc
      intro d hd
      rcases List.mem_cons.mp hd with h | h
      · subst h; exact digitChar_ne_dash _
      · exact hacc d h

/-- The decimal rendering of a natural number contains no hyphen. -/
lemma nat_repr_no_dash (n : Nat) : '-' ∉ (Nat.repr n).data := by
  intro hmem
  have : ('-' : Char) ≠ '-' := by
    refine toDigitsCore_ne_dash 10 (n + 1) n [] (by simp) '-' ?_
    simpa [Nat.repr, Nat.toDigits, List.asString] using hmem
  exact this rfl

/-- The decimal rendering of a nonnegative integer contains no hyphen. -/
lemma int_repr_no_dash (n : Int) (h : 0 ≤ n) : '-' ∉ (toString n).data := by
  obtain ⟨m, rfl⟩ := Int.eq_ofNat_of_zero_le h
  show '-' ∉ (Int.repr (Int.ofNat m)).data
  simpa [Int.repr] using nat_repr_no_dash m

lemma splitOnDashL_no_dash (p : List Char) (hp : '-' ∉ p) : splitOnDashL p = [p] := by
  induction p with
  | nil => rfl
  | cons c t ih =>
    have hc : c ≠ '-' := fun h => hp (h ▸ List.mem_cons_self c t)
    have ht : '-' ∉ t := fun h => hp (List.mem_cons_of_mem c h)
    simp [splitOnDashL, ih ht, hc]

lemma splitOnDashL_ne_nil (s : List Char) : splitOnDashL s ≠ [] := by
  cases s with
  | nil => simp [splitOnDashL]
  | cons c r =>
    unfold splitOnDashL
    split
    · simp
    · split <;> simp

lemma splitOnDashL_append (p t : List Char) (hp : '-' ∉ p) :
    splitOnDashL (p ++ '-' :: t) = p :: splitOnDashL t := by
  induction p with
  | nil =>
    cases h : splitOnDashL t with
    | nil => exact absurd h (splitOnDashL_ne_nil t)
    | cons seg segs => simp [splitOnDashL, h]
  | cons c r ih =>
    have hc : c ≠ '-' := fun h => hp (h ▸ List.mem_cons_self c r)
    have hr : '-' ∉ r := fun h => hp (List.mem_cons_of_mem c h)
    have := ih hr
    cases h : splitOnDashL (r ++ '-' :: t) with
    | nil => rw [h] at this; exact absurd this (by simp)
    | cons seg segs =>
      rw [h] at this
      simp only [List.cons_append, splitOnDashL, h, hc, if_neg hc]
      obtain ⟨h1, h2⟩ := List.cons.injEq .. ▸ this
      simp_all

/-- Splitting on `-` undoes joining with `-` when no segment contains `-`. -/
lemma splitOnDashL_joinDashL (parts : List (List Char)) (hne : parts ≠ [])
    (hnd : ∀ p ∈ parts, '-' ∉ p) : splitOnDashL (joinDashL parts) = parts := by
  induction parts with
  | nil => exact absurd rfl hne
  | cons p rest ih =>
    cases rest with
    | nil =>
      simp only [joinDashL]
      exact splitOnDashL_no_dash p (hnd p (List.mem_cons_self p []))
    | cons q r =>
      have hp : '-' ∉ p := hnd p (List.mem_cons_self p _)
      show splitOnDashL (p ++ '-' :: joinDashL (q :: r)) = p :: q :: r
      rw [splitOnDashL_append p _ hp]
      rw [ih (by simp) (fun x hx => hnd x (List.mem_cons_of_mem p hx))]

/-- String-level restatement of the split/join round trip. -/
lemma splitDash_joinDash (parts : List String) (hne : parts ≠ [])
    (hnd : ∀ p ∈ parts, '-' ∉ p.data) : splitDash (joinDash parts) = parts := by
  unfold splitDash joinDash
  rw [show (String.mk (joinDashL (parts.map String.data))).data
        = joinDashL (parts.map String.data) from rfl]
  rw [splitOnDashL_joinDashL (parts.map String.data)
        (by simpa using hne)
        (by intro p hp
            obtain ⟨s, hs, rfl⟩ := List.mem_map.mp hp
            exact hnd s hs)]
  rw [List.map_map]
  have : (String.mk ∘ String.data) = id := by
    funext s; cases s; rfl
  simp [this]

lemma digit_not_upper (c : Char) (h : c.isDigit = true) : c.isUpper = false := by
  unfold Char.isDigit at h
  unfold Char.isUpper
  simp only [Bool.and_eq_true, decide_eq_true_eq, ge_iff_le] at h
  simp only [Bool.and_eq_false_iff, decide_eq_false_iff_not, ge_iff_le]
  obtain ⟨h1, h2⟩ := h
  left
  intro hc
  rw [UInt32.le_def, BitVec.le_def] at h2 hc
  simp at h2 hc
  omega

lemma takeWhile_append_all {p : Char → Bool} (xs ys : List Char) (h : xs.all p = true) :
    (xs ++ ys).takeWhile p = xs ++ ys.takeWhile p := by
  induction xs with
  | nil => simp
  | cons c t ih =>
    simp only [List.all_cons, Bool.and_eq_true] at h
    simp [List.takeWhile, h.1, ih h.2]

lemma dropWhile_append_all {p : Char → Bool} (xs ys : List Char) (h : xs.all p = true) :
    (xs ++ ys).dropWhile p = ys.dropWhile p := by
  induction xs with
  | nil => simp
  | cons c t ih =>
    simp only [List.all_cons, Bool.and_eq_true] at h
    simp [List.dropWhile, h.1, ih h.2]

lemma takeWhile_isUpper_digits (d : List Char) (hne : d ≠ [])
    (hdig : d.all Char.isDigit = true) : d.takeWhile Char.isUpper = [] := by
  cases d with
  | nil => exact absurd rfl hne
  | cons c t =>
    simp only [List.all_cons, Bool.and_eq_true] at hdig
    simp [List.takeWhile, digit_not_upper c hdig.1]

lemma dropWhile_isUpper_digits (d : List Char) (hne : d ≠ [])
    (hdig : d.all Char.isDigit = true) : d.dropWhile Char.isUpper = d := by
  cases d with
  | nil => exact absurd rfl hne
  | cons c t =>
    simp only [List.all_cons, Bool.and_eq_true] at hdig
    simp [List.dropWhile, digit_not_upper c hdig.1]

/-- The base codes after which `parse_alteration_code` attaches a formatted
numeric qualifier. -/
def suffixBases : List String := posBases ++ ["JLP", "KLP", "ZZZ", "LL"]

/-- A token shaped as one of the `suffixBases` followed by a non-empty digit
run (as recognised by the regex model `splitUD`). -/
def isBaseSuffixToken (s : String) : Bool :=
  match splitUD s with
  | some (base, _) => suffixBases.contains base
  | none => false

lemma suffixBases_upper :
    suffixBases.all (fun b => b.data.all Char.isUpper && !b.data.isEmpty) = true := by decide

lemma table_keys_no_suffix_shape :
    ALTERATION_CODES.all (fun kv => !(isBaseSuffixToken kv.1)) = true := by decide

/-- Applying `splitUD` to a suffix base followed by digits recovers the two halves. -/
lemma splitUD_base_digits (b d : String) (hb : b ∈ suffixBases) (hne : d.data ≠ [])
    (hdig : d.data.all Char.isDigit = true) : splitUD (b ++ d) = some (b, d) := by
  have hall := List.all_eq_true.mp suffixBases_upper b hb
  simp only [Bool.and_eq_true, Bool.not_eq_true'] at hall
  have hup1 : b.data.all Char.isUpper = true := hall.1
  have hup2 : b.data ≠ [] := by
    intro heq
    rw [heq] at hall
    simp at hall
  have hdata : (b ++ d).data = b.data ++ d.data := String.data_append ..
  unfold splitUD
  rw [hdata, takeWhile_append_all _ _ hup1, dropWhile_append_all _ _ hup1,
      takeWhile_isUpper_digits d.data hne hdig, dropWhile_isUpper_digits d.data hne hdig]
  rw [if_pos ⟨by simpa using hup2, hne, hdig⟩]
  simp only [List.append_nil]

lemma lookup_eq_none_of_ne {l : List (String × String)} {s : String}
    (h : ∀ p ∈ l, s ≠ p.1) : l.lookup s = none := by
  induction l with
  | nil => rfl
  | cons kv t ih =>
    have h1 : (s == kv.1) = false :=
      beq_eq_false_iff_ne.mpr (h kv (List.mem_cons_self kv t))
    simp only [List.lookup, h1]
    exact ih fun p hp => h p (List.mem_cons_of_mem kv hp)

/-- A suffix base followed by digits is never itself a table key. -/
lemma lookup_base_digits_none (b d : String) (hb : b ∈ suffixBases) (hne : d.data ≠ [])
    (hdig : d.data.all Char.isDigit = true) : ALTERATION_CODES.lookup (b ++ d) = none := by
  refine lookup_eq_none_of_ne fun p hp heq => ?_
  have hshape : isBaseSuffixToken (b ++ d) = true := by
    unfold isBaseSuffixToken
    rw [splitUD_base_digits b d hb hne hdig]
    exact List.elem_eq_true_of_mem hb
  have := List.all_eq_true.mp table_keys_no_suffix_shape p hp
  rw [← heq] at this
  rw [hshape] at this
  exact absurd this (by decide)

/-- Core of the suffix-decomposition claims: parsing `base ++ digits` for a
known suffix base takes the regex branch and dispatches on the base category. -/
lemma parse_base_digits (b d desc : String) (hb : b ∈ suffixBases)
    (hdesc : ALTERATION_CODES.lookup b = some desc) (hne : d.data ≠ [])
    (hdig : d.data.all Char.isDigit = true) :
    parse_alteration_code (b ++ d) = qualifierFor b desc d := by
  have hnone := lookup_base_digits_none b d hb hne hdig
  have hsplit := splitUD_base_digits b d hb hne hdig
  simp only [parse_alteration_code, hnone, hsplit, hdesc, Option.isSome_none,
    Bool.and_false, Bool.false_eq_true, if_false]

lemma buildSizeOf_unsupported (bv : Option BuildVolume)
    (h : ∀ v, bv = some v → v.x ≠ 250 ∧ v.x ≠ 300 ∧ v.x ≠ 350) :
    buildSizeOf bv = none := by
  cases bv with
  | none => rfl
  | some v =>
    obtain ⟨h1, h2, h3⟩ := h v rfl
    simp [buildSizeOf, h1, h2, h3]

lemma expectedX_cases (bs : Option String) :
    expectedX bs = none ∨ expectedX bs = some 250 ∨ expectedX bs = some 300 ∨
      expectedX bs = some 350 := by
  unfold expectedX
  split_ifs <;> simp

lemma matchExp_false {e : Option Int} {f : Int → Bool}
    (h : ∀ x, e = some x → f x = false) : matchExp e f = false := by
  cases e with
  | none => rfl
  | some x => exact h x rfl

lemma cHit_false (alts : List String) (len : Int) (bs : Option String)
    (h : ∀ e, expectedX bs = some e → (len == e + 120) = false) :
    cHit alts len bs = false := by
  unfold cHit
  have hany : (alts.filter startsWithAVorAH).any (fun pos_code =>
      match parseInt? (pos_code.data.drop 2) with
      | none => false
      | some position =>
        matchExp (expectedX bs) fun expected_c =>
          len == expected_c + 120 &&
          decide ((position - Int.fdiv len 2).natAbs ≤ 5)) = false := by
    refine List.any_eq_false.mpr fun pc _ => ?_
    cases hp : parseInt? (pc.data.drop 2) with
    | none => simp
    | some position =>
      simp only [Bool.not_eq_true]
      exact matchExp_false fun x hx => by rw [h x hx]; simp
  simp [hany]

/-! ## Claim theorems -/

/-- C4: for every build volume with x-dimension X, `get_extrusion_specs`
returns exactly eight specs in order A..H with lengths X+120, 500, X+120,
X-10, X+80, X+120, X-18, 330, quantities 9,4,1,1,1,1,1,1 and the fixed
alteration lists (C's wrench hole at the floor of (X+120)/2); in particular
the 350 volume yields A=470x9 [TPW], B=500x4, H=330x1. -/
theorem c4_generate_specs_table : ∀ v : BuildVolume,
    ((TridentPrinter.get_extrusion_specs v).map ExtrusionSpec.letter
       = ["A", "B", "C", "D", "E", "F", "G", "H"]) ∧
    ((TridentPrinter.get_extrusion_specs v).map ExtrusionSpec.length
       = [v.x + 120, 500, v.x + 120, v.x - 10, v.x + 80, v.x + 120, v.x - 18, 330]) ∧
    ((TridentPrinter.get_extrusion_specs v).map ExtrusionSpec.quantity
       = [9, 4, 1, 1, 1, 1, 1, 1]) ∧
    ((TridentPrinter.get_extrusion_specs v).map ExtrusionSpec.alterations
       = [["TPW"], ["LCP", "RCP", "AV360"],
          ["AV" ++ toString (Int.fdiv (v.x + 120) 2), "TPW"],
          [], [], ["AH235", "TPW"], ["AH235"], []]) ∧
    ((TridentPrinter.get_extrusion_specs ⟨350, 350, 250, "350x350x250"⟩).map
        (fun s => (s.letter, s.length, s.quantity, s.alterations))
      = [("A", 470, 9, ["TPW"]), ("B", 500, 4, ["LCP", "RCP", "AV360"]),
         ("C", 470, 1, ["AV235", "TPW"]), ("D", 340, 1, []), ("E", 430, 1, []),
         ("F", 470, 1, ["AH235", "TPW"]), ("G", 332, 1, ["AH235"]), ("H", 330, 1, [])]) :=
  fun v => ⟨rfl, rfl, rfl, rfl, by decide⟩

/-- C7: every key of the alteration table is resolved by the exact-match
branch of `parse_alteration_code`: the table's description, no qualifier.
In particular keys of letters-then-digits shape (Z5, Z6, Z8, Z12, X5, X8)
are never split into base and suffix. -/
theorem c7_exact_match_no_qualifier (code desc : String)
    (h : ALTERATION_CODES.lookup code = some desc) :
    parse_alteration_code code = (desc, none) := by
  unfold parse_alteration_code
  rw [h]

theorem c7_exact_match_no_qualifier_witness :
    parse_alteration_code "Z6" = ("Counterbore in Specified Position (Z6, d=6.5mm)", none) ∧
    parse_alteration_code "X5" = ("Wrench Hole Diameter Specification (5mm)", none) :=
  ⟨c7_exact_match_no_qualifier "Z6" _ (by decide),
   c7_exact_match_no_qualifier "X5" _ (by decide)⟩

/-- C8: for a position-letter base code B and non-empty digit string D,
`parse_alteration_code (B ++ D)` yields the table description of B with
qualifier `D ++ "mm from left end"`; for JLP/KLP the qualifier is
`"Hole pitch: " ++ D ++ "mm"`, for ZZZ `"Serial: " ++ D`, for LL
`"Unit: " ++ D`. -/
theorem c8_suffix_decomposition :
    (∀ b d desc : String, b ∈ posBases → ALTERATION_CODES.lookup b = some desc →
       d.data ≠ [] → d.data.all Char.isDigit = true →
       parse_alteration_code (b ++ d) = (desc, some (d ++ "mm from left end"))) ∧
    (∀ b d desc : String, (b = "JLP" ∨ b = "KLP") →
       ALTERATION_CODES.lookup b = some desc →
       d.data ≠ [] → d.data.all Char.isDigit = true →
       parse_alteration_code (b ++ d) = (desc, some ("Hole pitch: " ++ d ++ "mm"))) ∧
    (∀ d desc : String, ALTERATION_CODES.lookup "ZZZ" = some desc →
       d.data ≠ [] → d.data.all Char.isDigit = true →
       parse_alteration_code ("ZZZ" ++ d) = (desc, some ("Serial: " ++ d))) ∧
    (∀ d desc : String, ALTERATION_CODES.lookup "LL" = some desc →
       d.data ≠ [] → d.data.all Char.isDigit = true →
       parse_alteration_code ("LL" ++ d) = (desc, some ("Unit: " ++ d))) := by
  refine ⟨?_, ?_, ?_, ?_⟩
  · intro b d desc hb hdesc hne hdig
    rw [parse_base_digits b d desc (List.mem_append_left _ hb) hdesc hne hdig]
    unfold qualifierFor
    rw [if_pos (List.elem_eq_true_of_mem hb)]
  · intro b d desc hb hdesc hne hdig
    rcases hb with rfl | rfl
    · rw [parse_base_digits "JLP" d desc (by decide) hdesc hne hdig]
      simp [qualifierFor]
      exact fun h => absurd h (by decide)
    · rw [parse_base_digits "KLP" d desc (by decide) hdesc hne hdig]
      simp [qualifierFor]
      exact fun h => absurd h (by decide)
  · intro d desc hdesc hne hdig
    rw [parse_base_digits "ZZZ" d desc (by decide) hdesc hne hdig]
    simp [qualifierFor]
    exact fun h => absurd h (by decide)
  · intro d desc hdesc hne hdig
    rw [parse_base_digits "LL" d desc (by decide) hdesc hne hdig]
    simp [qualifierFor]
    exact fun h => absurd h (by decide)

theorem c8_suffix_decomposition_witness :
    parse_alteration_code "AV360"
      = ("Wrench Hole in Specified Position (Vertical, A position)",
         some "360mm from left end") ∧
    parse_alteration_code "ZZZ123" = ("Labeling (Serial Number)", some "Serial: 123") :=
  ⟨c8_suffix_decomposition.1 "AV" "360" _ (by decide) (by decide) (by decide) (by decide),
   c8_suffix_decomposition.2.2.1 "123" _ (by decide) (by decide) (by decide)⟩

/-- C9 (amended): a token that is not a table key and not of the
letters-then-digits shape resolves to "Unknown alteration code: <token>"
with no qualifier; a token of that shape that is not itself a table key and
whose letter portion is not a table key resolves to
"Unknown alteration code: <letters>" with the digit string as qualifier. -/
theorem c9_unknown_code_stability :
    (∀ code : String, ALTERATION_CODES.lookup code = none → splitUD code = none →
       parse_alteration_code code = ("Unknown alteration code: " ++ code, none)) ∧
    (∀ code base num : String, ALTERATION_CODES.lookup code = none →
       splitUD code = some (base, num) → ALTERATION_CODES.lookup base = none →
       parse_alteration_code code = ("Unknown alteration code: " ++ base, some num)) := by
  constructor
  · intro code h1 h2
    simp only [parse_alteration_code, h1, h2, Option.isSome_none, Bool.and_false,
      Bool.false_eq_true, if_false]
  · intro code base num h1 h2 h3
    simp only [parse_alteration_code, h1, h2, h3, Option.isSome_none, Bool.and_false,
      Bool.false_eq_true, if_false]

theorem c9_unknown_code_stability_witness :
    parse_alteration_code "Q@" = ("Unknown alteration code: Q@", none) ∧
    parse_alteration_code "QQQ123" = ("Unknown alteration code: QQQ", some "123") :=
  ⟨c9_unknown_code_stability.1 "Q@" (by decide) (by decide),
   c9_unknown_code_stability.2 "QQQ123" "QQQ" "123" (by decide) (by decide) (by decide)⟩

/-- C9 counterexample: "Z5" is of the letters-then-digits shape and its
letter portion "Z" is not a table key, yet `parse_alteration_code` resolves
it through the exact-match branch (it is itself a key), not to the
"Unknown alteration code" form the claim prescribes. -/
theorem c9_unknown_code_counterexample :
    splitUD "Z5" = some ("Z", "5") ∧
    ALTERATION_CODES.lookup "Z" = none ∧
    parse_alteration_code "Z5" = ("Counterbore in Specified Position (Z5, d=5.5mm)", none) ∧
    parse_alteration_code "Z5" ≠ ("Unknown alteration code: Z", some "5") := by
  refine ⟨by decide, by decide, by decide, by decide⟩

/-- C3: `decode_misumi_name` yields the error record exactly when the input
splits into fewer than 3 hyphen-separated segments; with 3 or more segments
it yields the normal record (part_number = input, raw series, size and
length taken from the first three segments) and the alteration-description
list has the same length as the alteration list. -/
theorem c3_parse_error_arity (part_number : String) :
    ((splitDash part_number).length < 3 →
       ∃ msg, decode_misumi_name part_number = .err msg) ∧
    (3 ≤ (splitDash part_number).length →
       ∃ alts descs,
         decode_misumi_name part_number =
           .ok part_number ((splitDash part_number).getD 0 "")
             (parse_size ((splitDash part_number).getD 1 ""))
             ((splitDash part_number).getD 1 "")
             (parse_length ((splitDash part_number).getD 2 ""))
             ((splitDash part_number).getD 2 "") alts descs ∧
         descs.length = alts.length) := by
  constructor
  · intro h
    exact ⟨"Invalid part number format. Expected at least 3 parts separated by hyphens, got: "
             ++ part_number, by simp [decode_misumi_name, h]⟩
  · intro h
    have h' : ¬(splitDash part_number).length < 3 := not_lt.mpr h
    refine ⟨if 3 < (splitDash part_number).length
              then (splitDash part_number).drop 3 else [],
            (if 3 < (splitDash part_number).length
              then (splitDash part_number).drop 3 else []).map describeAlteration, ?_, ?_⟩
    · simp [decode_misumi_name, h']
    · exact List.length_map ..

theorem c3_parse_error_arity_witness :
    (∃ msg, decode_misumi_name "HFSB5-2020" = .err msg) ∧
    (∃ alts descs,
       decode_misumi_name "HFSB5-2020-500" =
         .ok "HFSB5-2020-500" "HFSB5" (parse_size "2020") "2020" (parse_length "500") "500"
           alts descs ∧ descs.length = alts.length) :=
  ⟨(c3_parse_error_arity "HFSB5-2020").1 (by decide),
   (c3_parse_error_arity "HFSB5-2020-500").2 (by decide)⟩

lemma ite_pos_length {α : Type} (l : List α) : (if 0 < l.length then l else []) = l := by
  cases l <;> simp

/-- C2 counterexample: a series containing a hyphen is split apart by
`decode_misumi_name`, so the encode/parse round trip fails for it:
encoding series "A-B" and re-parsing yields series "A". -/
theorem c2_roundtrip_counterexample :
    MisumiMaker.encode_part_number "A-B" "2020" 500 none = "A-B-2020-500" ∧
    (decode_misumi_name (MisumiMaker.encode_part_number "A-B" "2020" 500 none)).seriesF
      = some "A" ∧
    (decode_misumi_name (MisumiMaker.encode_part_number "A-B" "2020" 500 none)).seriesF
      ≠ some "A-B" := by
  refine ⟨by decide, by decide, by decide⟩

/-- C2 (amended): when none of the series, the size, or the alteration tokens
contains a hyphen and the length is nonnegative (so its decimal rendering
contains no hyphen either), parsing the encoded part number recovers the
series, raw size, raw length (the decimal rendering of the length) and the
alteration token list; an empty or omitted alteration list round-trips to
the empty list. -/
theorem c2_encode_parse_roundtrip (series size : String) (length : Int)
    (alterations : Option (List String))
    (hs : '-' ∉ series.data) (hz : '-' ∉ size.data) (hl : 0 ≤ length)
    (ha : ∀ a ∈ alterations.getD [], '-' ∉ a.data) :
    (decode_misumi_name (MisumiMaker.encode_part_number series size length alterations)).seriesF
      = some series ∧
    (decode_misumi_name (MisumiMaker.encode_part_number series size length alterations)).sizeRawF
      = some size ∧
    (decode_misumi_name
        (MisumiMaker.encode_part_number series size length alterations)).lengthRawF
      = some (toString length) ∧
    (decode_misumi_name
        (MisumiMaker.encode_part_number series size length alterations)).alterationsF
      = some (alterations.getD []) := by
  set alts := alterations.getD [] with halts
  have henc : MisumiMaker.encode_part_number series size length alterations
      = joinDash ([series, size, toString length] ++ alts) := by
    unfold MisumiMaker.encode_part_number
    cases alterations with
    | none => simp [halts]
    | some a =>
      cases a with
      | nil => simp [halts]
      | cons x t => simp [halts]
  have hsplit : splitDash (MisumiMaker.encode_part_number series size length alterations)
      = [series, size, toString length] ++ alts := by
    rw [henc]
    refine splitDash_joinDash _ (by simp) ?_
    intro p hp
    simp only [List.cons_append, List.nil_append, List.mem_cons] at hp
    rcases hp with rfl | rfl | rfl | hp
    · exact hs
    · exact hz
    · exact int_repr_no_dash length hl
    · exact ha p hp
  have hlen : ¬(splitDash (MisumiMaker.encode_part_number series size length alterations)).length
      < 3 := by
    rw [hsplit]
    simp
  have hdec : decode_misumi_name (MisumiMaker.encode_part_number series size length alterations)
      = .ok (MisumiMaker.encode_part_number series size length alterations)
          series (parse_size size) size (parse_length (toString length)) (toString length)
          alts (alts.map describeAlteration) := by
    unfold decode_misumi_name
    rw [if_neg (by rw [hsplit]; simp)]
    rw [hsplit]
    have hdrop : (if 3 < ([series, size, toString length] ++ alts).length
        then ([series, size, toString length] ++ alts).drop 3 else []) = alts := by
      cases alts with
      | nil => simp
      | cons x t => simp
    simp [hdrop, ite_pos_length]
  rw [hdec]
  exact ⟨rfl, rfl, rfl, rfl⟩

theorem c2_encode_parse_roundtrip_witness :
    (decode_misumi_name
        (MisumiMaker.encode_part_number "HFSB5" "2020" 500 (some ["LCP", "RCP"]))).seriesF
      = some "HFSB5" ∧
    (decode_misumi_name
        (MisumiMaker.encode_part_number "HFSB5" "2020" 500 (some ["LCP", "RCP"]))).sizeRawF
      = some "2020" ∧
    (decode_misumi_name
        (MisumiMaker.encode_part_number "HFSB5" "2020" 500 (some ["LCP", "RCP"]))).lengthRawF
      = some (toString (500 : Int)) ∧
    (decode_misumi_name
        (MisumiMaker.encode_part_number "HFSB5" "2020" 500 (some ["LCP", "RCP"]))).alterationsF
      = some ["LCP", "RCP"] :=
  c2_encode_parse_roundtrip "HFSB5" "2020" 500 (some ["LCP", "RCP"])
    (by decide) (by decide) (by decide) (by decide)

/-- C1 counterexample: for the 250 volume, the generated spec for role G
(length 232, quantity 1, alterations ["AH235"]) classifies to `none`, not
"G" — the classifier's G rule requires LTP, which the generator never
emits for G. -/
theorem c1_generate_classify_counterexample :
    ((TridentPrinter.get_extrusion_specs ⟨250, 250, 250, "250x250x250"⟩).getD 6
        ⟨"", 0, 0, [], ""⟩).letter = "G" ∧
    ((TridentPrinter.get_extrusion_specs ⟨250, 250, 250, "250x250x250"⟩).getD 6
        ⟨"", 0, 0, [], ""⟩).length = 232 ∧
    ((TridentPrinter.get_extrusion_specs ⟨250, 250, 250, "250x250x250"⟩).getD 6
        ⟨"", 0, 0, [], ""⟩).alterations = ["AH235"] ∧
    ((TridentPrinter.get_extrusion_specs ⟨250, 250, 250, "250x250x250"⟩).getD 6
        ⟨"", 0, 0, [], ""⟩).quantity = 1 ∧
    TridentPrinter.get_extrusion_letter
      (partOfSpec ((TridentPrinter.get_extrusion_specs ⟨250, 250, 250, "250x250x250"⟩).getD 6
        ⟨"", 0, 0, [], ""⟩)) 1 (some ⟨250, 250, 250, "250x250x250"⟩) = none ∧
    TridentPrinter.get_extrusion_letter
      (partOfSpec ((TridentPrinter.get_extrusion_specs ⟨250, 250, 250, "250x250x250"⟩).getD 6
        ⟨"", 0, 0, [], ""⟩)) 1 (some ⟨250, 250, 250, "250x250x250"⟩) ≠ some "G" := by
  refine ⟨by decide, by decide, by decide, by decide, by decide, by decide⟩

/-- C1 (amended): feeding a generated spec back through classification
recovers the role letter for roles A, B, C, D, E (the first five specs) at
each of the three supported build volumes; for the remaining roles F, G, H
the round trip never recovers the letter (F's spec carries TPW which the F
rule excludes, and the G/H rules require LTP which their specs lack). -/
theorem c1_generate_classify_amended :
    (TridentPrinter.get_supported_build_volumes.all fun v =>
       ((TridentPrinter.get_extrusion_specs v).take 5).all fun s =>
         roundTripSpec v s) = true ∧
    (TridentPrinter.get_supported_build_volumes.all fun v =>
       ((TridentPrinter.get_extrusion_specs v).drop 5).all fun s =>
         !(roundTripSpec v s)) = true := by
  refine ⟨by decide, by decide⟩

/-- Every result of the build-volume-aware classifier is `none` or one of the
eight single letters. -/
lemma tridentLetter_mem (d : DecodedPart) (q : Int) (bv : Option BuildVolume) :
    TridentPrinter.get_extrusion_letter d q bv ∈
      [none, some "A", some "B", some "C", some "D", some "E", some "F", some "G",
       some "H"] := by
  cases d with
  | err m => simp [TridentPrinter.get_extrusion_letter]
  | ok pn ser siz sizr lenf lenr alts descs =>
    cases hp : parseInt? lenr.data with
    | none => simp [TridentPrinter.get_extrusion_letter, hp]
    | some x =>
      simp only [TridentPrinter.get_extrusion_letter, hp]
      repeat' split
      all_goals simp

/-- C10: the build-volume-aware classifier never returns the combined "C/H"
sentinel — its result is always `none` or a single letter A-H — while the
legacy length-table classifier does return "C/H" for a 470mm TPW part with
no build size. -/
theorem c10_no_combined_sentinel :
    (∀ (d : DecodedPart) (q : Int) (bv : Option BuildVolume),
       TridentPrinter.get_extrusion_letter d q bv ≠ some "C/H") ∧
    (∀ (d : DecodedPart) (q : Int) (bv : Option BuildVolume),
       TridentPrinter.get_extrusion_letter d q bv ∈
         [none, some "A", some "B", some "C", some "D", some "E", some "F", some "G",
          some "H"]) ∧
    Voron.get_extrusion_letter (decode_misumi_name "HFSB5-2020-470-TPW") 1 none
      = some "C/H" := by
  refine ⟨?_, tridentLetter_mem, by decide⟩
  intro d q bv h
  have hm := tridentLetter_mem d q bv
  rw [h] at hm
  simp at hm

/-- C5: with no build volume, or one whose x-dimension is not 250/300/350,
the classifier can only answer "B", "H" or the unknown sentinel `none` —
never any of the expectedX-dependent letters. -/
theorem c5_unsupported_volume (d : DecodedPart) (q : Int) (bv : Option BuildVolume)
    (h : ∀ v, bv = some v → v.x ≠ 250 ∧ v.x ≠ 300 ∧ v.x ≠ 350) :
    TridentPrinter.get_extrusion_letter d q bv = none ∨
    TridentPrinter.get_extrusion_letter d q bv = some "B" ∨
    TridentPrinter.get_extrusion_letter d q bv = some "H" := by
  have hbs := buildSizeOf_unsupported bv h
  cases d with
  | err m => exact Or.inl rfl
  | ok pn ser siz sizr lenf lenr alts descs =>
    cases hp : parseInt? lenr.data with
    | none => exact Or.inl (by simp [TridentPrinter.get_extrusion_letter, hp])
    | some x =>
      have hmx : ∀ f : Int → Bool, matchExp (expectedX (buildSizeOf bv)) f = false := by
        intro f
        rw [hbs]
        rfl
      have hch : cHit alts x (buildSizeOf bv) = false := by
        rw [hbs]
        exact cHit_false _ _ _ fun e he => by simp [expectedX] at he
      simp only [TridentPrinter.get_extrusion_letter, hp, hmx, hch, Bool.and_false,
        Bool.false_and, Bool.false_eq_true, if_false]
      split
      · exact Or.inr (Or.inl rfl)
      · split
        · exact Or.inr (Or.inr rfl)
        · exact Or.inl rfl

theorem c5_unsupported_volume_witness :
    (TridentPrinter.get_extrusion_letter
        (decode_misumi_name "HFSB5-2020-500-LCP-RCP-AV360") 4 none = none ∨
     TridentPrinter.get_extrusion_letter
        (decode_misumi_name "HFSB5-2020-500-LCP-RCP-AV360") 4 none = some "B" ∨
     TridentPrinter.get_extrusion_letter
        (decode_misumi_name "HFSB5-2020-500-LCP-RCP-AV360") 4 none = some "H") ∧
    (TridentPrinter.get_extrusion_letter
        (decode_misumi_name "HFSB5-2020-470-TPW") 9
        (some ⟨260, 260, 250, "260x260x250"⟩) = none ∨
     TridentPrinter.get_extrusion_letter
        (decode_misumi_name "HFSB5-2020-470-TPW") 9
        (some ⟨260, 260, 250, "260x260x250"⟩) = some "B" ∨
     TridentPrinter.get_extrusion_letter
        (decode_misumi_name "HFSB5-2020-470-TPW") 9
        (some ⟨260, 260, 250, "260x260x250"⟩) = some "H") :=
  ⟨c5_unsupported_volume _ 4 none (by simp),
   c5_unsupported_volume _ 9 (some ⟨260, 260, 250, "260x260x250"⟩)
     (by intro v hv; injection hv with hv; subst hv; refine ⟨by decide, by decide, by decide⟩)⟩

/-- C6: for a decoded part with LTP among its alterations, quantity 1 and
integer length exactly 330, whenever the resolved expectedX does not make
G's formula expectedX - 18 hit 330 the classifier answers "H" (G is checked
first, but its rule cannot fire at 330 for any supported volume); in
particular decode("HFSB5-2020-330-LTP") with quantity 1 under the 250 volume
classifies as "H". -/
theorem c6_role_h_after_g (pn ser siz sizr lenf lenr : String)
    (alts descs : List String) (q : Int) (bv : Option BuildVolume)
    (h1 : "LTP" ∈ alts) (h2 : q = 1) (h3 : parseInt? lenr.data = some 330)
    (_h4 : ∀ e, expectedX (buildSizeOf bv) = some e → e - 18 ≠ 330) :
    TridentPrinter.get_extrusion_letter (.ok pn ser siz sizr lenf lenr alts descs) q bv
      = some "H" := by
  subst h2
  have hcont : alts.contains "LTP" = true := List.elem_eq_true_of_mem h1
  have hemp : alts.isEmpty = false := by
    cases alts with
    | nil => exact absurd h1 (List.not_mem_nil _)
    | cons a t => rfl
  rcases expectedX_cases (buildSizeOf bv) with he | he | he | he
  all_goals {
    have hch : cHit alts 330 (buildSizeOf bv) = false := by
      refine cHit_false _ _ _ fun e hee => ?_
      rw [he] at hee
      first
        | exact Option.noConfusion hee
        | (injection hee with hee2; subst hee2; decide)
    simp [TridentPrinter.get_extrusion_letter, h3, he, matchExp, hch, hcont, hemp, h1]
  }

theorem c6_role_h_after_g_witness :
    TridentPrinter.get_extrusion_letter (decode_misumi_name "HFSB5-2020-330-LTP") 1
      (some ⟨250, 250, 250, "250x250x250"⟩) = some "H" := by
  have hd : decode_misumi_name "HFSB5-2020-330-LTP"
      = .ok "HFSB5-2020-330-LTP" "HFSB5" "20mm × 20mm" "2020" "330mm" "330" ["LTP"]
          ["Left End Tapping (Center Hole)"] := by decide
  rw [hd]
  refine c6_role_h_after_g _ _ _ _ _ _ _ _ _ _ (by decide) rfl (by decide) ?_
  intro e he
  have h250 : expectedX (buildSizeOf (some ⟨250, 250, 250, "250x250x250"⟩))
      = some 250 := by decide
  rw [h250] at he
  injection he with he
  subst he
  decide
